import Mathlib

/-!
Verification of the `time-since` library (`src/time-since.ts`).

The library exports a single function `timeSince(date, options)` that
computes the elapsed (or remaining) time between a reference date and the
current moment ("now"), returning either a millisecond-derived total in a
single unit, a structured breakdown object, or a relative phrase built by
`Intl.RelativeTimeFormat`.

Shallow embedding choices:
* An instant is an `Int` epoch-millisecond timestamp (JS `Date.getTime()`).
* The parsed reference date is an `Option Int`: `none` models an invalid
  date (`NaN` timestamp, e.g. an unparseable string), `some t` a valid one.
* The observation instant `now` is passed explicitly, mirroring the single
  `new Date()` capture in the source.
* The external `Intl.RelativeTimeFormat` collaborator is abstracted: the
  relative branch records the exact signed count and unit the source passes
  to `rtf.format`, or the literal `"now"` fallback.
* `throw new Error('Invalid date input')` becomes `Except.error`.
* JS `Math.floor(x / k)` and `x % k` on the non-negative magnitudes are
  `Nat` division and modulus on `Int.natAbs` of the signed delta.
-/

namespace TimeSince

/-- The options bag `{ format?, locale? }`; `none` models an absent field,
mirroring `const { format = 'object', locale = 'en' } = options`. -/
structure TimeSinceOptions where
  format : Option String := none
  locale : Option String := none
deriving Repr, DecidableEq

/-- The breakdown object returned by the default branch of the switch. -/
structure DurationBreakdown where
  date : Int
  asOf : Int
  years : Nat
  months : Nat
  days : Nat
  hours : Nat
  minutes : Nat
  seconds : Nat
  milliseconds : Nat
deriving Repr, DecidableEq

/-- The time units the source can pass to `Intl.RelativeTimeFormat.format`. -/
inductive TimeUnit where
  | year
  | month
  | day
  | hour
  | minute
  | second
deriving Repr, DecidableEq

/-- Outcome of the `'relative'` branch: either the external phrase formatter
was invoked with a signed count and a unit, or the literal `"now"` string
was returned without invoking it. -/
inductive RelPhrase where
  | formatted (count : Int) (unit : TimeUnit)
  | nowLiteral
deriving Repr, DecidableEq

/-- The union result type `TimeSinceResult | number | string` of `timeSince`. -/
inductive TimeSinceValue where
  | num (n : Nat)
  | rel (p : RelPhrase)
  | obj (b : DurationBreakdown)
deriving Repr, DecidableEq

/-- `const isFuture = startDate.getTime() > now.getTime()`. -/
def isFuture (startDate now : Int) : Bool :=
  decide (startDate > now)

/-- `const diffMilliseconds = Math.abs(now.getTime() - startDate.getTime())`. -/
def diffMilliseconds (startDate now : Int) : Nat :=
  (now - startDate).natAbs

/-- `const diffSeconds = Math.floor(diffMilliseconds / 1000)`. -/
def diffSeconds (startDate now : Int) : Nat :=
  diffMilliseconds startDate now / 1000

/-- `const diffMinutes = Math.floor(diffSeconds / 60)`. -/
def diffMinutes (startDate now : Int) : Nat :=
  diffSeconds startDate now / 60

/-- `const diffHours = Math.floor(diffMinutes / 60)`. -/
def diffHours (startDate now : Int) : Nat :=
  diffMinutes startDate now / 60

/-- `const diffDays = Math.floor(diffHours / 24)`. -/
def diffDays (startDate now : Int) : Nat :=
  diffHours startDate now / 24

/-- `const diffMonths = Math.floor(diffDays / 30)` (approximate month length). -/
def diffMonths (startDate now : Int) : Nat :=
  diffDays startDate now / 30

/-- `const diffYears = Math.floor(diffMonths / 12)`. -/
def diffYears (startDate now : Int) : Nat :=
  diffMonths startDate now / 12

/-- `const years = diffYears`. -/
def years (startDate now : Int) : Nat :=
  diffYears startDate now

/-- `const months = diffMonths % 12`. -/
def months (startDate now : Int) : Nat :=
  diffMonths startDate now % 12

/-- `const days = diffDays % 30`. -/
def days (startDate now : Int) : Nat :=
  diffDays startDate now % 30

/-- `const hours = diffHours % 24`. -/
def hours (startDate now : Int) : Nat :=
  diffHours startDate now % 24

/-- `const minutes = diffMinutes % 60`. -/
def minutes (startDate now : Int) : Nat :=
  diffMinutes startDate now % 60

/-- `const seconds = diffSeconds % 60`. -/
def seconds (startDate now : Int) : Nat :=
  diffSeconds startDate now % 60

/-- `const milliseconds = diffMilliseconds % 1000`. -/
def milliseconds (startDate now : Int) : Nat :=
  diffMilliseconds startDate now % 1000

/-- The `case 'relative'` block: `const sign = isFuture ? 1 : -1`, then the
first non-zero total unit in order years, months, days, hours, minutes,
seconds is formatted with `rtf.format(sign * diff, unit)`; if all are zero
the literal string `'now'` is returned. -/
def relativeResult (startDate now : Int) : RelPhrase :=
  let sign : Int := if isFuture startDate now then 1 else -1
  if diffYears startDate now ≠ 0 then
    .formatted (sign * (diffYears startDate now : Int)) .year
  else if diffMonths startDate now ≠ 0 then
    .formatted (sign * (diffMonths startDate now : Int)) .month
  else if diffDays startDate now ≠ 0 then
    .formatted (sign * (diffDays startDate now : Int)) .day
  else if diffHours startDate now ≠ 0 then
    .formatted (sign * (diffHours startDate now : Int)) .hour
  else if diffMinutes startDate now ≠ 0 then
    .formatted (sign * (diffMinutes startDate now : Int)) .minute
  else if diffSeconds startDate now ≠ 0 then
    .formatted (sign * (diffSeconds startDate now : Int)) .second
  else
    .nowLiteral

/-- The `default` branch: the complete breakdown object, with the future-date
special case (`years` forced to 0 and `months` replaced by the total
`Math.floor(diffDays / 30)` when `isFuture`). -/
def objectResult (startDate now : Int) : DurationBreakdown where
  date := startDate
  asOf := now
  years := if isFuture startDate now then 0 else years startDate now
  months := if isFuture startDate now then diffDays startDate now / 30
            else months startDate now
  days := days startDate now
  hours := hours startDate now
  minutes := minutes startDate now
  seconds := seconds startDate now
  milliseconds := milliseconds startDate now

/-- The `switch (format)` dispatch of the source, as the sequential string
comparisons a JS switch performs; any unmatched string reaches `default`. -/
def formatDispatch (startDate now : Int) (format : String) : TimeSinceValue :=
  if format = "milliseconds" then .num (diffMilliseconds startDate now)
  else if format = "seconds" then .num (diffSeconds startDate now)
  else if format = "minutes" then .num (diffMinutes startDate now)
  else if format = "hours" then .num (diffHours startDate now)
  else if format = "days" then .num (diffDays startDate now)
  else if format = "months" then .num (diffMonths startDate now)
  else if format = "years" then .num (diffYears startDate now)
  else if format = "relative" then .rel (relativeResult startDate now)
  else .obj (objectResult startDate now)

/-- `timeSince(date, options)`: validate the parsed date (throwing
`Invalid date input` on `NaN`), then dispatch on
`options.format ?? 'object'`.  The `locale` option only feeds the external
`Intl.RelativeTimeFormat` constructor and does not affect which arguments
are passed to it, so it is read and discarded here as in the source. -/
def timeSince (date : Option Int) (now : Int)
    (options : TimeSinceOptions := {}) : Except String TimeSinceValue :=
  match date with
  | none => .error "Invalid date input"
  | some startDate =>
      let format := options.format.getD "object"
      .ok (formatDispatch startDate now format)

/-- The nine `format` strings handled by named cases of the switch. -/
def recognizedFormats : List String :=
  ["milliseconds", "seconds", "minutes", "hours", "days", "months",
   "years", "relative", "object"]

/-! ### Helper lemmas -/

/-- A reference at or before the observation instant is not in the future. -/
theorem isFuture_eq_false (startDate now : Int) (h : startDate ≤ now) :
    isFuture startDate now = false := by
  simp only [isFuture, decide_eq_false_iff_not, gt_iff_lt, not_lt]
  exact h

/-- A reference strictly after the observation instant is in the future. -/
theorem isFuture_eq_true (startDate now : Int) (h : now < startDate) :
    isFuture startDate now = true := by
  simp only [isFuture, gt_iff_lt, decide_eq_true_eq]
  exact h

/-- A valid date with format absent or `"object"` reaches the default branch
and yields the breakdown object. -/
theorem timeSince_object_eq (ref now : Int) (fmt l : Option String)
    (hfmt : fmt = none ∨ fmt = some "object") :
    timeSince (some ref) now ⟨fmt, l⟩ = .ok (.obj (objectResult ref now)) := by
  rcases hfmt with h | h <;> subst h <;> rfl

/-- Any format string outside the nine recognized values falls through every
case of the switch to the default branch. -/
theorem formatDispatch_unrecognized (startDate now : Int) (f : String)
    (h : f ∉ recognizedFormats) :
    formatDispatch startDate now f = .obj (objectResult startDate now) := by
  simp only [recognizedFormats, List.mem_cons, List.not_mem_nil, or_false,
    not_or] at h
  obtain ⟨h1, h2, h3, h4, h5, h6, h7, h8, h9⟩ := h
  simp [formatDispatch, h1, h2, h3, h4, h5, h6, h7, h8]

/-! ### Claim theorems -/

/-- Claim C1: for every valid reference instant strictly before the
observation instant, the `DurationBreakdown` returned by `timeSince` with
the default `object` format has each component non-negative and within its
remainder bound: `months ∈ [0,11]`, `days ∈ [0,29]`, `hours ∈ [0,23]`,
`minutes ∈ [0,59]`, `seconds ∈ [0,59]`, `milliseconds ∈ [0,999]`, and
`years ≥ 0`. -/
theorem timeSince_object_components_bounded (ref now : Int) (fmt l : Option String)
    (href : ref < now) (hfmt : fmt = none ∨ fmt = some "object") :
    ∃ b : DurationBreakdown,
      timeSince (some ref) now ⟨fmt, l⟩ = .ok (.obj b) ∧
      0 ≤ b.years ∧ b.months ≤ 11 ∧ b.days ≤ 29 ∧ b.hours ≤ 23 ∧
      b.minutes ≤ 59 ∧ b.seconds ≤ 59 ∧ b.milliseconds ≤ 999 := by
  refine ⟨objectResult ref now, timeSince_object_eq ref now fmt l hfmt,
    Nat.zero_le _, ?_, ?_, ?_, ?_, ?_, ?_⟩
  · simp only [objectResult, isFuture_eq_false ref now href.le, if_false,
      Bool.false_eq_true, months]
    omega
  · simp only [objectResult, days]
    omega
  · simp only [objectResult, hours]
    omega
  · simp only [objectResult, minutes]
    omega
  · simp only [objectResult, seconds]
    omega
  · simp only [objectResult, milliseconds]
    omega

/-- Witness for C1 at a concrete past reference. -/
theorem timeSince_object_components_bounded_witness :
    (0 : Int) < 1000 ∧
    ∃ b : DurationBreakdown,
      timeSince (some 0) 1000 ⟨none, none⟩ = .ok (.obj b) ∧
      0 ≤ b.years ∧ b.months ≤ 11 ∧ b.days ≤ 29 ∧ b.hours ≤ 23 ∧
      b.minutes ≤ 59 ∧ b.seconds ≤ 59 ∧ b.milliseconds ≤ 999 :=
  ⟨by decide,
   timeSince_object_components_bounded 0 1000 none none (by decide) (Or.inl rfl)⟩

/-- Claim C2: for every valid reference and observation instant, each of the
seven single-unit formats returns the corresponding total value, computed by
successive integer division of the absolute millisecond delta, as a
non-negative integer magnitude, with no sign re-applied even when the
reference is in the future. -/
theorem timeSince_single_unit_totals (ref now : Int) (l : Option String) :
    timeSince (some ref) now ⟨some "milliseconds", l⟩ =
      .ok (.num ((now - ref).natAbs)) ∧
    timeSince (some ref) now ⟨some "seconds", l⟩ =
      .ok (.num ((now - ref).natAbs / 1000)) ∧
    timeSince (some ref) now ⟨some "minutes", l⟩ =
      .ok (.num ((now - ref).natAbs / 1000 / 60)) ∧
    timeSince (some ref) now ⟨some "hours", l⟩ =
      .ok (.num ((now - ref).natAbs / 1000 / 60 / 60)) ∧
    timeSince (some ref) now ⟨some "days", l⟩ =
      .ok (.num ((now - ref).natAbs / 1000 / 60 / 60 / 24)) ∧
    timeSince (some ref) now ⟨some "months", l⟩ =
      .ok (.num ((now - ref).natAbs / 1000 / 60 / 60 / 24 / 30)) ∧
    timeSince (some ref) now ⟨some "years", l⟩ =
      .ok (.num ((now - ref).natAbs / 1000 / 60 / 60 / 24 / 30 / 12)) :=
  ⟨rfl, rfl, rfl, rfl, rfl, rfl, rfl⟩

/-- Claim C3: `timeSince` with format `relative` formats the largest
non-zero total unit, checked in priority order years, months, days, hours,
minutes, seconds, passing a negative count to the phrase formatter when the
reference is not in the future and a positive count when it is; and when
every one of those total units is zero it returns the literal `"now"`. -/
theorem timeSince_relative_behavior (ref now : Int) (l : Option String) :
    ∃ r : RelPhrase,
      timeSince (some ref) now ⟨some "relative", l⟩ = .ok (.rel r) ∧
      (diffYears ref now ≠ 0 →
        r = .formatted ((if isFuture ref now then 1 else -1) *
              (diffYears ref now : Int)) .year) ∧
      (diffYears ref now = 0 → diffMonths ref now ≠ 0 →
        r = .formatted ((if isFuture ref now then 1 else -1) *
              (diffMonths ref now : Int)) .month) ∧
      (diffMonths ref now = 0 → diffDays ref now ≠ 0 →
        r = .formatted ((if isFuture ref now then 1 else -1) *
              (diffDays ref now : Int)) .day) ∧
      (diffDays ref now = 0 → diffHours ref now ≠ 0 →
        r = .formatted ((if isFuture ref now then 1 else -1) *
              (diffHours ref now : Int)) .hour) ∧
      (diffHours ref now = 0 → diffMinutes ref now ≠ 0 →
        r = .formatted ((if isFuture ref now then 1 else -1) *
              (diffMinutes ref now : Int)) .minute) ∧
      (diffMinutes ref now = 0 → diffSeconds ref now ≠ 0 →
        r = .formatted ((if isFuture ref now then 1 else -1) *
              (diffSeconds ref now : Int)) .second) ∧
      (diffYears ref now = 0 ∧ diffMonths ref now = 0 ∧
       diffDays ref now = 0 ∧ diffHours ref now = 0 ∧
       diffMinutes ref now = 0 ∧ diffSeconds ref now = 0 →
        r = .nowLiteral) ∧
      (∀ (c : Int) (u : TimeUnit), r = .formatted c u →
        (isFuture ref now = true → 0 < c) ∧
        (isFuture ref now = false → c < 0)) := by
  refine ⟨relativeResult ref now, rfl, ?_, ?_, ?_, ?_, ?_, ?_, ?_, ?_⟩
  · intro hY
    simp [relativeResult, hY]
  · intro hY hMo
    simp [relativeResult, hY, hMo]
  · intro hMo hD
    have hY : diffYears ref now = 0 := by simp [diffYears, hMo]
    simp [relativeResult, hY, hMo, hD]
  · intro hD hH
    have hMo : diffMonths ref now = 0 := by simp [diffMonths, hD]
    have hY : diffYears ref now = 0 := by simp [diffYears, hMo]
    simp [relativeResult, hY, hMo, hD, hH]
  · intro hH hMi
    have hD : diffDays ref now = 0 := by simp [diffDays, hH]
    have hMo : diffMonths ref now = 0 := by simp [diffMonths, hD]
    have hY : diffYears ref now = 0 := by simp [diffYears, hMo]
    simp [relativeResult, hY, hMo, hD, hH, hMi]
  · intro hMi hS
    have hH : diffHours ref now = 0 := by simp [diffHours, hMi]
    have hD : diffDays ref now = 0 := by simp [diffDays, hH]
    have hMo : diffMonths ref now = 0 := by simp [diffMonths, hD]
    have hY : diffYears ref now = 0 := by simp [diffYears, hMo]
    simp [relativeResult, hY, hMo, hD, hH, hMi, hS]
  · rintro ⟨hY, hMo, hD, hH, hMi, hS⟩
    simp [relativeResult, hY, hMo, hD, hH, hMi, hS]
  · intro c u hr
    unfold relativeResult at hr
    by_cases hf : isFuture ref now = true
    · refine ⟨fun _ => ?_, fun hff => by simp [hf] at hff⟩
      simp only [hf, if_true] at hr
      split_ifs at hr with h1 h2 h3 h4 h5 h6 <;>
        injection hr with hc hu <;> omega
    · have hf' : isFuture ref now = false := by
        revert hf
        cases isFuture ref now <;> simp
      refine ⟨fun htt => by simp [hf'] at htt, fun _ => ?_⟩
      simp only [hf', Bool.false_eq_true, if_false] at hr
      split_ifs at hr with h1 h2 h3 h4 h5 h6 <;>
        injection hr with hc hu <;> omega

/-- Witness for C3 at a zero delta: the relative format yields the literal
`"now"`. -/
theorem timeSince_relative_behavior_witness :
    timeSince (some 0) 0 ⟨some "relative", none⟩ = .ok (.rel .nowLiteral) := by
  obtain ⟨r, hr, -, -, -, -, -, -, hnow, -⟩ := timeSince_relative_behavior 0 0 none
  rw [hr, hnow (by decide)]

/-- Claim C4: for every valid reference instant strictly after the
observation instant, the default `object` breakdown has `years = 0` and
`months` equal to the total months value `diffDays / 30`, not the
remainder. -/
theorem timeSince_future_object_months_total (ref now : Int) (fmt l : Option String)
    (href : now < ref) (hfmt : fmt = none ∨ fmt = some "object") :
    ∃ b : DurationBreakdown,
      timeSince (some ref) now ⟨fmt, l⟩ = .ok (.obj b) ∧
      b.years = 0 ∧ b.months = diffDays ref now / 30 := by
  refine ⟨objectResult ref now, timeSince_object_eq ref now fmt l hfmt, ?_, ?_⟩
  · simp [objectResult, isFuture_eq_true ref now href]
  · simp [objectResult, isFuture_eq_true ref now href]

/-- Witness for C4 at observation `2024-04-01T00:00:00Z` (epoch ms
1711929600000) and reference `2025-01-01T00:00:00Z` (epoch ms
1735689600000): the breakdown has `years = 0` and `months = 9`. -/
theorem timeSince_future_object_months_total_witness :
    (1711929600000 : Int) < 1735689600000 ∧
    ∃ b : DurationBreakdown,
      timeSince (some 1735689600000) 1711929600000 ⟨some "object", none⟩ =
        .ok (.obj b) ∧
      b.years = 0 ∧ b.months = 9 := by
  refine ⟨by decide, ?_⟩
  obtain ⟨b, hb, hy, hm⟩ :=
    timeSince_future_object_months_total 1735689600000 1711929600000
      (some "object") none (by decide) (Or.inr rfl)
  exact ⟨b, hb, hy, hm.trans (by decide)⟩

/-- Claim C5: `timeSince` fails with the invalid-date error exactly when the
parsed reference instant is invalid (`none`, modelling a `NaN` timestamp);
the error carries no partial result, and every valid reference yields a
successful result under every options object. -/
theorem timeSince_invalid_date_error (now : Int) (o : TimeSinceOptions) :
    timeSince none now o = .error "Invalid date input" ∧
    ∀ t : Int, ∃ v : TimeSinceValue, timeSince (some t) now o = .ok v :=
  ⟨rfl, fun t => ⟨formatDispatch t now (o.format.getD "object"), rfl⟩⟩

/-- Claim C6: the total units returned by the seven single-unit formats
satisfy adjacent-pair consistency under integer division, and each remainder
component of the `object` breakdown equals the corresponding total modulo
its divisor (for `months` and `years` on the non-future path, where the
breakdown exposes the remainder). -/
theorem timeSince_unit_consistency (ref now : Int) (l : Option String) :
    ∃ (tms ts tmi th td tmo ty : Nat) (b : DurationBreakdown),
      timeSince (some ref) now ⟨some "milliseconds", l⟩ = .ok (.num tms) ∧
      timeSince (some ref) now ⟨some "seconds", l⟩ = .ok (.num ts) ∧
      timeSince (some ref) now ⟨some "minutes", l⟩ = .ok (.num tmi) ∧
      timeSince (some ref) now ⟨some "hours", l⟩ = .ok (.num th) ∧
      timeSince (some ref) now ⟨some "days", l⟩ = .ok (.num td) ∧
      timeSince (some ref) now ⟨some "months", l⟩ = .ok (.num tmo) ∧
      timeSince (some ref) now ⟨some "years", l⟩ = .ok (.num ty) ∧
      timeSince (some ref) now ⟨some "object", l⟩ = .ok (.obj b) ∧
      ts = tms / 1000 ∧ tmi = ts / 60 ∧ th = tmi / 60 ∧
      td = th / 24 ∧ tmo = td / 30 ∧ ty = tmo / 12 ∧
      b.milliseconds = tms % 1000 ∧ b.seconds = ts % 60 ∧
      b.minutes = tmi % 60 ∧ b.hours = th % 24 ∧ b.days = td % 30 ∧
      (isFuture ref now = false → b.months = tmo % 12 ∧ b.years = ty) := by
  refine ⟨diffMilliseconds ref now, diffSeconds ref now, diffMinutes ref now,
    diffHours ref now, diffDays ref now, diffMonths ref now, diffYears ref now,
    objectResult ref now,
    rfl, rfl, rfl, rfl, rfl, rfl, rfl, rfl,
    rfl, rfl, rfl, rfl, rfl, rfl,
    rfl, rfl, rfl, rfl, rfl, ?_⟩
  intro hf
  constructor
  · simp [objectResult, hf, months]
  · simp [objectResult, hf, years]

/-- Witness for C6 at a concrete reference/observation pair. -/
theorem timeSince_unit_consistency_witness :
    ∃ (tms ts tmi th td tmo ty : Nat) (b : DurationBreakdown),
      timeSince (some 0) 98765432109 ⟨some "milliseconds", none⟩ = .ok (.num tms) ∧
      timeSince (some 0) 98765432109 ⟨some "seconds", none⟩ = .ok (.num ts) ∧
      timeSince (some 0) 98765432109 ⟨some "minutes", none⟩ = .ok (.num tmi) ∧
      timeSince (some 0) 98765432109 ⟨some "hours", none⟩ = .ok (.num th) ∧
      timeSince (some 0) 98765432109 ⟨some "days", none⟩ = .ok (.num td) ∧
      timeSince (some 0) 98765432109 ⟨some "months", none⟩ = .ok (.num tmo) ∧
      timeSince (some 0) 98765432109 ⟨some "years", none⟩ = .ok (.num ty) ∧
      timeSince (some 0) 98765432109 ⟨some "object", none⟩ = .ok (.obj b) ∧
      ts = tms / 1000 ∧ tmi = ts / 60 ∧ th = tmi / 60 ∧
      td = th / 24 ∧ tmo = td / 30 ∧ ty = tmo / 12 ∧
      b.milliseconds = tms % 1000 ∧ b.seconds = ts % 60 ∧
      b.minutes = tmi % 60 ∧ b.hours = th % 24 ∧ b.days = td % 30 ∧
      b.months = tmo % 12 ∧ b.years = ty := by
  obtain ⟨tms, ts, tmi, th, td, tmo, ty, b, h1, h2, h3, h4, h5, h6, h7, h8,
    e1, e2, e3, e4, e5, e6, r1, r2, r3, r4, r5, hmy⟩ :=
    timeSince_unit_consistency 0 98765432109 none
  obtain ⟨hm, hy⟩ := hmy (by decide)
  exact ⟨tms, ts, tmi, th, td, tmo, ty, b, h1, h2, h3, h4, h5, h6, h7, h8,
    e1, e2, e3, e4, e5, e6, r1, r2, r3, r4, r5, hm, hy⟩

/-- Claim C7: an options object whose format is absent or not one of the
nine recognized strings produces, without error, the same structured
breakdown as format `object`. -/
theorem timeSince_unrecognized_format_defaults (ref now : Int)
    (fmt l : Option String)
    (hfmt : fmt = none ∨ ∃ s, fmt = some s ∧ s ∉ recognizedFormats) :
    ∃ b : DurationBreakdown,
      timeSince (some ref) now ⟨fmt, l⟩ = .ok (.obj b) ∧
      timeSince (some ref) now ⟨some "object", l⟩ = .ok (.obj b) := by
  refine ⟨objectResult ref now, ?_, rfl⟩
  rcases hfmt with h | ⟨s, hs, hmem⟩
  · subst h
    rfl
  · subst hs
    show Except.ok (formatDispatch ref now s) = _
    rw [formatDispatch_unrecognized ref now s hmem]

/-- Witness for C7 at the unrecognized format string `"fortnights"`. -/
theorem timeSince_unrecognized_format_defaults_witness :
    ∃ b : DurationBreakdown,
      timeSince (some 0) 123456789 ⟨some "fortnights", none⟩ = .ok (.obj b) ∧
      timeSince (some 0) 123456789 ⟨some "object", none⟩ = .ok (.obj b) :=
  timeSince_unrecognized_format_defaults 0 123456789 (some "fortnights") none
    (Or.inr ⟨"fortnights", rfl, by decide⟩)

/-- Claim C8: with the observation instant fixed at `2024-04-01T00:00:00Z`
(epoch ms 1711929600000): a reference of `2024-03-31T23:59:59Z` with format
`milliseconds` returns 1000; a reference of `2024-03-31T23:59:50Z` with
format `seconds` returns 10; and a reference of `2020-01-01T00:00:00Z` with
format `years` returns 4. -/
theorem timeSince_example_scenarios :
    timeSince (some 1711929599000) 1711929600000 ⟨some "milliseconds", none⟩ =
      .ok (.num 1000) ∧
    timeSince (some 1711929590000) 1711929600000 ⟨some "seconds", none⟩ =
      .ok (.num 10) ∧
    timeSince (some 1577836800000) 1711929600000 ⟨some "years", none⟩ =
      .ok (.num 4) :=
  ⟨rfl, rfl, rfl⟩

/-- Claim C9: a non-zero absolute delta strictly below 1000 milliseconds
makes the `relative` format return the literal `"now"` without invoking the
phrase formatter, indistinguishably from a zero delta. -/
theorem timeSince_subsecond_relative_now (ref now : Int) (l : Option String)
    (h1 : 0 < (now - ref).natAbs) (h2 : (now - ref).natAbs < 1000) :
    timeSince (some ref) now ⟨some "relative", l⟩ = .ok (.rel .nowLiteral) := by
  have hS : diffSeconds ref now = 0 := by
    simp only [diffSeconds, diffMilliseconds]
    omega
  have hMi : diffMinutes ref now = 0 := by simp [diffMinutes, hS]
  have hH : diffHours ref now = 0 := by simp [diffHours, hMi]
  have hD : diffDays ref now = 0 := by simp [diffDays, hH]
  have hMo : diffMonths ref now = 0 := by simp [diffMonths, hD]
  have hY : diffYears ref now = 0 := by simp [diffYears, hMo]
  have hrel : relativeResult ref now = .nowLiteral := by
    simp [relativeResult, hY, hMo, hD, hH, hMi, hS]
  show Except.ok (TimeSinceValue.rel (relativeResult ref now)) =
    Except.ok (TimeSinceValue.rel RelPhrase.nowLiteral)
  rw [hrel]

/-- Witness for C9 at a 500 ms delta. -/
theorem timeSince_subsecond_relative_now_witness :
    0 < ((500 : Int) - 0).natAbs ∧ ((500 : Int) - 0).natAbs < 1000 ∧
    timeSince (some 0) 500 ⟨some "relative", none⟩ = .ok (.rel .nowLiteral) :=
  ⟨by decide, by decide,
   timeSince_subsecond_relative_now 0 500 none (by decide) (by decide)⟩

/-- Claim C10: for every valid reference instant at or before the
observation instant, the components of the default `object` breakdown
exactly reconstruct the absolute millisecond delta under the fixed
30-day-month, 12-month-year approximation. -/
theorem timeSince_breakdown_lossless (ref now : Int) (fmt l : Option String)
    (href : ref ≤ now) (hfmt : fmt = none ∨ fmt = some "object") :
    ∃ b : DurationBreakdown,
      timeSince (some ref) now ⟨fmt, l⟩ = .ok (.obj b) ∧
      b.milliseconds + 1000 * (b.seconds + 60 * (b.minutes + 60 * (b.hours +
        24 * (b.days + 30 * (b.months + 12 * b.years))))) =
        (now - ref).natAbs := by
  refine ⟨objectResult ref now, timeSince_object_eq ref now fmt l hfmt, ?_⟩
  simp only [objectResult, isFuture_eq_false ref now href, Bool.false_eq_true,
    if_false, milliseconds, seconds, minutes, hours, days, months, years,
    diffYears, diffMonths, diffDays, diffHours, diffMinutes, diffSeconds,
    diffMilliseconds]
  omega

/-- Witness for C10 at a concrete past reference. -/
theorem timeSince_breakdown_lossless_witness :
    (0 : Int) ≤ 123456789012 ∧
    ∃ b : DurationBreakdown,
      timeSince (some 0) 123456789012 ⟨none, none⟩ = .ok (.obj b) ∧
      b.milliseconds + 1000 * (b.seconds + 60 * (b.minutes + 60 * (b.hours +
        24 * (b.days + 30 * (b.months + 12 * b.years))))) =
        ((123456789012 : Int) - 0).natAbs :=
  ⟨by decide,
   timeSince_breakdown_lossless 0 123456789012 none none (by decide) (Or.inl rfl)⟩

end TimeSince
